import Mathlib

/-!
Verification of the graph data model and editing engine of the UML/ER diagram
editor: the diagram store (`normalizeEdge`, `removeNode`, `updateNodeData`,
`addNodes`, `addEdges`), the relationship synthesizer (`onConnect`,
`toIdentifier`), the conversation/history reconciler (`loadHistorySuccess`,
`handleGenerateSuccess`, `handleProcessImageSuccess`, `handleClearHistorySuccess`,
`handleDeleteEntrySuccess`) and the offline fallback generator
(`buildFallbackDiagram`).

Each definition is a shallow embedding of the corresponding TypeScript
function.  JavaScript numbers are modelled as `Rat` for canvas coordinates
(exact midpoints) and `Int` for server-assigned history ids; `undefined`
optional fields become `Option`; the nullish-coalescing operator `??` becomes
`Option.getD`.  Case mapping covers the ASCII letters, which is what the
string operations involved touch.
-/

namespace UmlEditor

/-- A column of a table entity (`Column` in `types.ts`).  `pk` and `nullable`
are optional booleans: an absent field (`none`) is rendered as
"not a primary key" / "nullable". -/
structure Column where
  id : String
  name : String
  type : String
  pk : Option Bool := none
  nullable : Option Bool := none
deriving DecidableEq

/-- Payload of a table node (`DatabaseNodeData` in `types.ts`). -/
structure DatabaseNodeData where
  label : String
  columns : List Column
  isJoin : Option Bool := none
  joinOf : Option (String × String) := none
deriving DecidableEq

/-- 2-D canvas coordinate.  JavaScript numbers are modelled as rationals so
that midpoints are exact. -/
structure Position where
  x : Rat
  y : Rat
deriving DecidableEq

/-- A diagram node (`DiagramNode = Node<DatabaseNodeData>`). -/
structure DiagramNode where
  id : String
  type : Option String := none
  position : Position
  data : DatabaseNodeData
deriving DecidableEq

/-- The attribute bundle of a relationship (`RelationshipData` in `types.ts`).
At runtime every field can be missing (edges arriving from an external
generator), so each is an `Option`; `kind` is kept as a raw string because
unrecognized values can flow in and are repaired by the normalizer. -/
structure RelationshipData where
  id : Option String := none
  source : Option String := none
  target : Option String := none
  kind : Option String := none
  sourceMult : Option String := none
  targetMult : Option String := none
  label : Option String := none
deriving DecidableEq

/-- The completely unpopulated attribute bundle, i.e. the `{}` produced by
`edge.data ?? {}` in the store. -/
def emptyRelationshipData : RelationshipData := {}

/-- A diagram edge (`DiagramEdge = Edge<RelationshipData>`): top-level
react-flow fields plus the optional `data` bundle. -/
structure DiagramEdge where
  id : String
  source : String
  target : String
  sourceHandle : Option String := none
  targetHandle : Option String := none
  label : Option String := none
  data : Option RelationshipData := none
deriving DecidableEq

/-- A full graph snapshot (`DiagramGraph`). -/
structure DiagramGraph where
  nodes : List DiagramNode
  edges : List DiagramEdge
deriving DecidableEq

/-- The diagram store state (`diagramStore.ts`): the canvas graph plus the
session-only relationship tool selection. -/
structure DiagramState where
  nodes : List DiagramNode
  edges : List DiagramEdge
  selectedRelationshipKind : String := "simple"
  selectedSourceMult : String := "1"
  selectedTargetMult : String := "*"
deriving DecidableEq

/-! ## Edge normalizer (`diagramStore.ts`, `normalizeEdge`) -/

/-- `isRelationshipKind` from `diagramStore.ts`: the four valid kinds. -/
def validKind (k : String) : Bool :=
  k == "simple" || k == "flechaBlanca" || k == "flechaNegra" || k == "segmentada"

/-- The kind selected by the normalizer: `isRelationshipKind(data.kind) ?
data.kind : KIND_FALLBACK` where the fallback is `"simple"`; an absent field
never satisfies `isRelationshipKind`. -/
def normKind : Option String → String
  | some k => if validKind k then k else "simple"
  | none => "simple"

/-- `normalizeEdge` from `diagramStore.ts`: completes a possibly partial
relationship to a fully-populated one (nested data fields win over top-level
edge fields; defaults `"simple"` / `"1"` / `"*"` / `""`). -/
def normalizeEdge (edge : DiagramEdge) : DiagramEdge :=
  let data := edge.data.getD emptyRelationshipData
  { edge with
    data := some
      { id := some (data.id.getD edge.id)
        source := some (data.source.getD edge.source)
        target := some (data.target.getD edge.target)
        kind := some (normKind data.kind)
        sourceMult := some (data.sourceMult.getD "1")
        targetMult := some (data.targetMult.getD "*")
        label := some (data.label.getD "") } }

/-- An edge is normalized when its data bundle is present and every field of
it is populated, with a valid kind. -/
def isNormalizedEdge (e : DiagramEdge) : Bool :=
  match e.data with
  | none => false
  | some d =>
    d.id.isSome && d.source.isSome && d.target.isSome &&
      (match d.kind with
       | some k => validKind k
       | none => false) &&
      d.sourceMult.isSome && d.targetMult.isSome && d.label.isSome

lemma validKind_normKind (o : Option String) : validKind (normKind o) = true := by
  cases o with
  | none => rfl
  | some k =>
    by_cases h : validKind k = true
    · simp [normKind, h]
    · simp [normKind, h]
      rfl

lemma normKind_normKind (o : Option String) :
    normKind (some (normKind o)) = normKind o := by
  have h : normKind (some (normKind o)) =
      if validKind (normKind o) = true then normKind o else "simple" := rfl
  rw [h, validKind_normKind o]
  simp

/-- Normalizing is idempotent. -/
lemma normalizeEdge_normalizeEdge (e : DiagramEdge) :
    normalizeEdge (normalizeEdge e) = normalizeEdge e := by
  simp [normalizeEdge, normKind_normKind]

/-- A normalized edge is a fixed point of the normalizer. -/
lemma normalizeEdge_of_isNormalized (e : DiagramEdge)
    (h : isNormalizedEdge e = true) : normalizeEdge e = e := by
  rcases e with ⟨i, s, t, sh, th, l, d⟩
  cases d with
  | none => simp [isNormalizedEdge] at h
  | some d =>
    rcases d with ⟨di, ds, dt, dk, dsm, dtm, dl⟩
    cases di <;> cases ds <;> cases dt <;> cases dk <;> cases dsm <;>
      cases dtm <;> cases dl <;>
      simp_all [isNormalizedEdge, normalizeEdge, normKind]

lemma isNormalizedEdge_normalizeEdge (e : DiagramEdge) :
    isNormalizedEdge (normalizeEdge e) = true := by
  simp [normalizeEdge, isNormalizedEdge, validKind_normKind]

/-! ## Graph store operations (`diagramStore.ts`) -/

/-- One step of the id-keyed `Map` used by `addNodes`/`addEdges`: setting a key
that is already present overwrites its value in place (keeping its position),
a new key is appended.  The JS merge `{ ...existing, ...incoming }` is a full
replacement because every incoming node/edge object in the store's call sites
carries all of its fields. -/
def insertByKey {α : Type} (key : α → String) (acc : List α) (x : α) : List α :=
  if acc.any (fun m => key m == key x) then
    acc.map (fun m => if key m == key x then x else m)
  else acc ++ [x]

/-- The first loop of `addNodes`/`addEdges`: pouring the current list into the
id-keyed `Map` (deduplicating by id, last write wins, first position kept). -/
def dedupByKey {α : Type} (key : α → String) (l : List α) : List α :=
  l.foldl (insertByKey key) []

/-- `addNodes` from `diagramStore.ts`: upsert incoming nodes by id. -/
def addNodes (incoming : List DiagramNode) (s : DiagramState) : DiagramState :=
  { s with
    nodes := incoming.foldl (insertByKey DiagramNode.id) (dedupByKey DiagramNode.id s.nodes) }

/-- `addEdges` from `diagramStore.ts`: upsert incoming edges by id, then pass
every edge of the resulting list through the normalizer. -/
def addEdges (incoming : List DiagramEdge) (s : DiagramState) : DiagramState :=
  { s with
    edges :=
      (incoming.foldl (insertByKey DiagramEdge.id) (dedupByKey DiagramEdge.id s.edges)).map
        normalizeEdge }

/-- `removeNode` from `diagramStore.ts`: drops the node with the given id and
every edge whose top-level `source` or `target` equals it, in one state
update. -/
def removeNode (nodeId : String) (s : DiagramState) : DiagramState :=
  { s with
    nodes := s.nodes.filter (fun n => n.id != nodeId)
    edges := s.edges.filter (fun e => e.source != nodeId && e.target != nodeId) }

/-- `updateNodeData` from `diagramStore.ts`: `node.id === nodeId ?
{ ...node, data } : node` — the whole `data` object of the matching node is
replaced by the supplied one. -/
def updateNodeData (nodeId : String) (d : DatabaseNodeData) (s : DiagramState) :
    DiagramState :=
  { s with
    nodes := s.nodes.map (fun n => if n.id == nodeId then { n with data := d } else n) }

/-- `setGraph` from `diagramStore.ts`: unconditional replacement, edges routed
through the normalizer. -/
def setGraph (g : DiagramGraph) (s : DiagramState) : DiagramState :=
  { s with nodes := g.nodes, edges := g.edges.map normalizeEdge }

/-! ## Relationship synthesizer (`TableEditor.tsx`, `onConnect`) -/

/-- The whitespace class of the JavaScript regular-expression escape used by
`toIdentifier` and of `String.prototype.trim`, restricted to the characters
that can actually occur here (ASCII whitespace and no-break space). -/
def isJsWs (c : Char) : Bool :=
  c == ' ' || c == '\t' || c == '\n' || c == '\r' || c.toNat == 11 ||
    c.toNat == 12 || c.toNat == 160

/-- ASCII case mapping of `String.prototype.toLowerCase`. -/
def asciiToLower (c : Char) : Char :=
  if 'A' ≤ c && c ≤ 'Z' then Char.ofNat (c.toNat + 32) else c

/-- `value.trim()` on the character list of a string. -/
def jsTrimList (cs : List Char) : List Char :=
  ((cs.dropWhile isJsWs).reverse.dropWhile isJsWs).reverse

/-- The substitution `value.replace` of every whitespace run by a single
underscore (`\s+` to `"_"`): the flag records whether the previous character
was whitespace (i.e. whether we are inside a run). -/
def wsRunsToUnderscore : Bool → List Char → List Char
  | _, [] => []
  | prevWs, c :: rest =>
    if isJsWs c then
      if prevWs then wsRunsToUnderscore true rest
      else '_' :: wsRunsToUnderscore true rest
    else c :: wsRunsToUnderscore false rest

/-- The character class kept by the final substitution of `toIdentifier`
(everything outside `[a-z0-9_]` is deleted). -/
def isIdentChar (c : Char) : Bool :=
  ('a' ≤ c && c ≤ 'z') || ('0' ≤ c && c ≤ '9') || c == '_'

/-- `toIdentifier` from `onConnect` in `TableEditor.tsx`:
`value.trim().toLowerCase().replace(whitespace runs, "_")` followed by deleting
every character outside `[a-z0-9_]`, falling back to `"relacion"` when the
result is empty. -/
def toIdentifier (value : String) : String :=
  let cleaned :=
    (wsRunsToUnderscore false ((jsTrimList value.data).map asciiToLower)).filter isIdentChar
  if cleaned.isEmpty then "relacion" else String.mk cleaned

/-- The join-entity id `join-<source>-<target>-<timestamp>`. -/
def joinIdOf (src tgt : String) (now : Nat) : String :=
  "join-" ++ src ++ "-" ++ tgt ++ "-" ++ toString now

/-- The edge id `edge-<from>-<to>-<timestamp>`. -/
def edgeIdOf (src tgt : String) (now : Nat) : String :=
  "edge-" ++ src ++ "-" ++ tgt ++ "-" ++ toString now

/-- `onConnect` from `TableEditor.tsx`.  `source`/`target` come from the
react-flow `Connection` (nullable, and the falsy guard also rejects empty
strings).  `now1` is the `Date.now()` used for the synthesized node id (or the
direct edge id); `now2` is the second `Date.now()` read for the two edge ids
of the many-to-many branch. -/
def onConnect (source target : Option String) (srcHandle tgtHandle : Option String)
    (now1 now2 : Nat) (s : DiagramState) : DiagramState :=
  match source, target with
  | some src, some tgt =>
    if src == "" || tgt == "" then s
    else if s.selectedRelationshipKind == "segmentada" && s.selectedSourceMult == "*" &&
        s.selectedTargetMult == "*" then
      let sourceNode := s.nodes.find? (fun n => n.id == src)
      let targetNode := s.nodes.find? (fun n => n.id == tgt)
      let sourceLabel := (sourceNode.map (fun n => n.data.label)).getD src
      let targetLabel := (targetNode.map (fun n => n.data.label)).getD tgt
      let joinId := joinIdOf src tgt now1
      let joinLabel := sourceLabel ++ "_" ++ targetLabel
      let sourcePosition := (sourceNode.map (fun n => n.position)).getD ⟨100, 100⟩
      let targetPosition :=
        (targetNode.map (fun n => n.position)).getD
          ⟨sourcePosition.x + 200, sourcePosition.y⟩
      let joinPosition : Position :=
        ⟨(sourcePosition.x + targetPosition.x) / 2,
         max sourcePosition.y targetPosition.y + 200⟩
      let joinColumns : List Column :=
        [{ id := joinId ++ "-id", name := "id", type := "INT", pk := some true,
           nullable := some false },
         { id := joinId ++ "-" ++ src, name := toIdentifier sourceLabel ++ "_id",
           type := "INT", nullable := some false },
         { id := joinId ++ "-" ++ tgt, name := toIdentifier targetLabel ++ "_id",
           type := "INT", nullable := some false }]
      let s1 :=
        addNodes
          [{ id := joinId, type := some "databaseNode", position := joinPosition,
             data := { label := joinLabel, columns := joinColumns,
                       isJoin := some true,
                       joinOf := some (sourceLabel, targetLabel) } }] s
      let leftEdgeId := edgeIdOf src joinId now2
      let rightEdgeId := edgeIdOf joinId tgt now2
      addEdges
        [{ id := leftEdgeId, source := src, target := joinId, label := some ""
           data := some
             { id := some leftEdgeId, source := some src, target := some joinId,
               kind := some "simple", sourceMult := some s.selectedSourceMult,
               targetMult := some "1", label := some "" } },
         { id := rightEdgeId, source := joinId, target := tgt, label := some ""
           data := some
             { id := some rightEdgeId, source := some joinId, target := some tgt,
               kind := some "simple", sourceMult := some "1",
               targetMult := some s.selectedTargetMult, label := some "" } }] s1
    else
      let id := edgeIdOf src tgt now1
      addEdges
        [{ id := id, source := src, target := tgt, sourceHandle := srcHandle,
           targetHandle := tgtHandle, label := some ""
           data := some
             { id := some id, source := some src, target := some tgt,
               kind := some s.selectedRelationshipKind,
               sourceMult := some s.selectedSourceMult,
               targetMult := some s.selectedTargetMult, label := some "" } }] s
  | _, _ => s

/-! ## Conversation/history reconciler (`ChatPanel.tsx`) -/

/-- A history entry as cached client-side (`PromptHistoryEntry`). -/
structure PromptHistoryEntry where
  id : Int
  userId : Int
  prompt : String
  graph : DiagramGraph
  createdAt : String
deriving DecidableEq

/-- The ChatPanel component state relevant to the reconciler: the prompt
buffer, the cached history list, the active conversation pointer, the
clear-all/delete busy flags, and the diagram store it writes to. -/
structure ChatState where
  prompt : String
  history : List PromptHistoryEntry
  activeHistoryId : Option Int
  isClearingHistory : Bool := false
  deletingId : Option Int := none
  historyError : Option String := none
  diagram : DiagramState
deriving DecidableEq

/-- `DEFAULT_PROMPT` from `ChatPanel.tsx`. -/
def DEFAULT_PROMPT : String :=
  "Crea tablas Usuario(id, nombre, email) y Post(id, user_id, titulo). Relacion 1:N"

/-- `prompt.trim()`. -/
def jsTrimString (s : String) : String :=
  String.mk (jsTrimList s.data)

/-- The per-edge sanitization of `applyGraphToCanvas` in `ChatPanel.tsx`: same
defaults as the store normalizer, except that the kind is not validated
(`baseData.kind ?? "simple"`); the store's `setGraph` re-normalizes
afterwards. -/
def sanitizeEdge (edge : DiagramEdge) : DiagramEdge :=
  let baseData := edge.data.getD emptyRelationshipData
  { edge with
    data := some
      { id := some (baseData.id.getD edge.id)
        source := some (baseData.source.getD edge.source)
        target := some (baseData.target.getD edge.target)
        kind := some (baseData.kind.getD "simple")
        sourceMult := some (baseData.sourceMult.getD "1")
        targetMult := some (baseData.targetMult.getD "*")
        label := some (baseData.label.getD "") } }

/-- `applyGraphToCanvas` from `ChatPanel.tsx`: sanitize the edges and replace
the store's graph through `setGraph`. -/
def applyGraphToCanvas (g : DiagramGraph) (d : DiagramState) : DiagramState :=
  setGraph { nodes := g.nodes, edges := g.edges.map sanitizeEdge } d

/-- The successful path of `loadHistory` in `ChatPanel.tsx`, with the fetched
and mapped records supplied as `fetched`: caches the list and re-derives the
active pointer (kept when still present; `none` preserved only when the
preserve-null option is set; otherwise the first entry's id, or `none` for an
empty list). -/
def loadHistorySuccess (preserveNull : Bool) (fetched : List PromptHistoryEntry)
    (s : ChatState) : ChatState :=
  let hit :=
    match s.activeHistoryId with
    | some a => fetched.any (fun e => e.id == a)
    | none => false
  let next : Option Int :=
    if hit then s.activeHistoryId
    else if preserveNull && s.activeHistoryId == none then none
    else (fetched.head?).map (fun e => e.id)
  { s with history := fetched, activeHistoryId := next, historyError := none }

/-- The successful path of `handleGenerate` in `ChatPanel.tsx`: `resp` is the
already array-checked response graph, `fetched` the list the history refetch
of the non-continuing branch would return.  The generation response carries no
history id.  Guards: an all-whitespace prompt and an empty response graph
return before mutating anything. -/
def handleGenerateSuccess (resp : DiagramGraph) (fetched : List PromptHistoryEntry)
    (s : ChatState) : ChatState :=
  let trimmed := jsTrimString s.prompt
  if trimmed == "" then s
  else if resp.nodes.isEmpty && resp.edges.isEmpty then s
  else
    let s1 := { s with diagram := applyGraphToCanvas resp s.diagram }
    match s.activeHistoryId with
    | some hid =>
      { s1 with
        history := s1.history.map (fun e =>
          if e.id == hid then { e with prompt := trimmed, graph := resp } else e) }
    | none => loadHistorySuccess false fetched s1

/-- The successful path of `handleProcessImage` in `ChatPanel.tsx` (vision
call): the response carries a graph, a history id and an optional prompt.
The cached entry is patched in place exactly when the pointer is non-null and
the response's id equals it; otherwise the history is refetched; finally a
truthy (non-zero) response id is adopted as the pointer. -/
def handleProcessImageSuccess (respGraph : DiagramGraph) (respHistoryId : Int)
    (respPrompt : Option String) (fetched : List PromptHistoryEntry)
    (s : ChatState) : ChatState :=
  let trimmed := jsTrimString s.prompt
  let pfr := respPrompt.getD trimmed
  let newPrompt := if pfr == "" then trimmed else pfr
  let s1 := { s with diagram := applyGraphToCanvas respGraph s.diagram, prompt := newPrompt }
  let s2 :=
    match s.activeHistoryId with
    | some hid =>
      if respHistoryId == hid then
        { s1 with
          history := s1.history.map (fun e =>
            if e.id == hid then
              { e with prompt := if pfr == "" then e.prompt else pfr, graph := respGraph }
            else e) }
      else loadHistorySuccess false fetched s1
    | none => loadHistorySuccess false fetched s1
  if respHistoryId != 0 then { s2 with activeHistoryId := some respHistoryId } else s2

/-- The successful path of `handleClearHistory` in `ChatPanel.tsx`:  guarded
by a non-empty history and the user's confirmation; on success the cached
list is emptied, the pointer reset to null and the prompt buffer reset to the
default seed text.  The diagram store is not touched. -/
def handleClearHistorySuccess (confirmed : Bool) (s : ChatState) : ChatState :=
  if s.history.isEmpty then s
  else if !confirmed then s
  else
    { s with history := [], activeHistoryId := none, prompt := DEFAULT_PROMPT,
             historyError := none, isClearingHistory := false, deletingId := none }

/-- `handleDeleteEntry` in `ChatPanel.tsx` on the success path.  The returned
boolean records whether the delete request was sent to the network at all:
a clear-all in progress (or a declined confirmation) returns immediately with
the state untouched. -/
def handleDeleteEntrySuccess (historyId : Int) (confirmed : Bool)
    (fetched : List PromptHistoryEntry) (s : ChatState) : ChatState × Bool :=
  if s.isClearingHistory then (s, false)
  else if !confirmed then (s, false)
  else
    (loadHistorySuccess true fetched { s with historyError := none, deletingId := none },
     true)

/-! ## Offline fallback generator (`ChatPanel.tsx`) -/

/-- Whether `needle` occurs at the head of the second list. -/
def leadsWith : List Char → List Char → Bool
  | [], _ => true
  | _ :: _, [] => false
  | a :: as, b :: bs => a == b && leadsWith as bs

/-- `String.prototype.includes` on character lists. -/
def containsSeq (needle : List Char) : List Char → Bool
  | [] => leadsWith needle []
  | c :: rest => leadsWith needle (c :: rest) || containsSeq needle rest

/-- `hay.includes(needle)`. -/
def strIncludes (hay needle : String) : Bool :=
  containsSeq needle.data hay.data

/-- `s.toLowerCase()` (ASCII case mapping). -/
def lowerStr (s : String) : String :=
  String.mk (s.data.map asciiToLower)

/-- `buildNode` helper of the fallback generator. -/
def buildNode (id label : String) (columns : List Column) (position : Position)
    (isJoin : Option Bool := none) (joinOf : Option (String × String) := none) :
    DiagramNode :=
  { id := id, type := some "databaseNode", position := position,
    data := { label := label, columns := columns, isJoin := isJoin, joinOf := joinOf } }

/-- `buildEdge` helper of the fallback generator. -/
def buildEdge (id source target sourceMult targetMult : String)
    (kind : String := "simple") (label : String := "") : DiagramEdge :=
  { id := id, source := source, target := target, label := some label,
    data := some
      { id := some id, source := some source, target := some target,
        kind := some kind, sourceMult := some sourceMult,
        targetMult := some targetMult, label := some label } }

/-- `buildSupermarketDiagram` from `ChatPanel.tsx`. -/
def buildSupermarketDiagram : DiagramGraph :=
  { nodes :=
      [buildNode "node-productos" "Productos"
        [{ id := "prod-id", name := "id", type := "INT", pk := some true,
           nullable := some false },
         { id := "prod-nombre", name := "nombre", type := "VARCHAR(120)",
           nullable := some false },
         { id := "prod-precio", name := "precio", type := "DECIMAL(10,2)",
           nullable := some false },
         { id := "prod-stock", name := "stock", type := "INT", nullable := some false }]
        ⟨460, 140⟩,
       buildNode "node-categorias" "Categorias"
        [{ id := "cat-id", name := "id", type := "INT", pk := some true,
           nullable := some false },
         { id := "cat-nombre", name := "nombre", type := "VARCHAR(120)",
           nullable := some false },
         { id := "cat-descripcion", name := "descripcion", type := "TEXT",
           nullable := some true }]
        ⟨180, 80⟩,
       buildNode "node-proveedores" "Proveedores"
        [{ id := "prov-id", name := "id", type := "INT", pk := some true,
           nullable := some false },
         { id := "prov-nombre", name := "nombre", type := "VARCHAR(150)",
           nullable := some false },
         { id := "prov-telefono", name := "telefono", type := "VARCHAR(50)",
           nullable := some true },
         { id := "prov-email", name := "email", type := "VARCHAR(120)",
           nullable := some true }]
        ⟨760, 80⟩,
       buildNode "node-clientes" "Clientes"
        [{ id := "cli-id", name := "id", type := "INT", pk := some true,
           nullable := some false },
         { id := "cli-nombre", name := "nombre", type := "VARCHAR(150)",
           nullable := some false },
         { id := "cli-email", name := "email", type := "VARCHAR(150)",
           nullable := some true },
         { id := "cli-telefono", name := "telefono", type := "VARCHAR(50)",
           nullable := some true }]
        ⟨180, 360⟩,
       buildNode "node-empleados" "Empleados"
        [{ id := "emp-id", name := "id", type := "INT", pk := some true,
           nullable := some false },
         { id := "emp-nombre", name := "nombre", type := "VARCHAR(150)",
           nullable := some false },
         { id := "emp-rol", name := "rol", type := "VARCHAR(80)",
           nullable := some false }]
        ⟨760, 360⟩,
       buildNode "node-ventas" "Ventas"
        [{ id := "ven-id", name := "id", type := "INT", pk := some true,
           nullable := some false },
         { id := "ven-fecha", name := "fecha", type := "DATETIME",
           nullable := some false },
         { id := "ven-total", name := "total", type := "DECIMAL(10,2)",
           nullable := some false },
         { id := "ven-cliente", name := "cliente_id", type := "INT",
           nullable := some false },
         { id := "ven-empleado", name := "empleado_id", type := "INT",
           nullable := some false }]
        ⟨460, 360⟩,
       buildNode "node-detalle-venta" "DetalleVenta"
        [{ id := "det-id", name := "id", type := "INT", pk := some true,
           nullable := some false },
         { id := "det-venta", name := "venta_id", type := "INT",
           nullable := some false },
         { id := "det-producto", name := "producto_id", type := "INT",
           nullable := some false },
         { id := "det-cantidad", name := "cantidad", type := "INT",
           nullable := some false },
         { id := "det-precio", name := "precio_unitario", type := "DECIMAL(10,2)",
           nullable := some false }]
        ⟨460, 560⟩ (some true) (some ("Ventas", "Productos")),
       buildNode "node-inventario" "Inventario"
        [{ id := "inv-id", name := "id", type := "INT", pk := some true,
           nullable := some false },
         { id := "inv-producto", name := "producto_id", type := "INT",
           nullable := some false },
         { id := "inv-sucursal", name := "sucursal", type := "VARCHAR(80)",
           nullable := some false },
         { id := "inv-stock", name := "stock_actual", type := "INT",
           nullable := some false }]
        ⟨900, 360⟩]
    edges :=
      [buildEdge "edge-cat-productos" "node-categorias" "node-productos" "1" "*",
       buildEdge "edge-prov-productos" "node-proveedores" "node-productos" "1" "*",
       buildEdge "edge-productos-inventario" "node-productos" "node-inventario" "1" "*",
       buildEdge "edge-clientes-ventas" "node-clientes" "node-ventas" "1" "*",
       buildEdge "edge-empleados-ventas" "node-empleados" "node-ventas" "1" "*",
       buildEdge "edge-ventas-detalle" "node-ventas" "node-detalle-venta" "1" "*",
       buildEdge "edge-productos-detalle" "node-productos" "node-detalle-venta" "1" "*"] }

/-- `buildDefaultDiagram` from `ChatPanel.tsx`: the fixed Usuario/Post
sample. -/
def buildDefaultDiagram : DiagramGraph :=
  { nodes :=
      [buildNode "node-usuario-ai" "Usuario"
        [{ id := "u-id", name := "id", type := "INT", pk := some true,
           nullable := some false },
         { id := "u-nombre", name := "nombre", type := "VARCHAR(100)",
           nullable := some false },
         { id := "u-email", name := "email", type := "VARCHAR(150)",
           nullable := some false }]
        ⟨200, 140⟩,
       buildNode "node-post-ai" "Post"
        [{ id := "p-id", name := "id", type := "INT", pk := some true,
           nullable := some false },
         { id := "p-user", name := "user_id", type := "INT", nullable := some false },
         { id := "p-title", name := "titulo", type := "VARCHAR(200)",
           nullable := some false }]
        ⟨520, 200⟩]
    edges :=
      [buildEdge "edge-usuario-post-ai" "node-usuario-ai" "node-post-ai" "1" "*"
        "simple" "Usuario crea Post"] }

/-- `buildFallbackDiagram` from `ChatPanel.tsx`: keyword-triggered offline
fallback, a pure function of the prompt text. -/
def buildFallbackDiagram (prompt : String) : Option DiagramGraph :=
  let text := lowerStr prompt
  if strIncludes text "supermercado" || strIncludes text "supermarket" then
    some buildSupermarketDiagram
  else if strIncludes text "usuario" || strIncludes text "post" then
    some buildDefaultDiagram
  else none

/-! ## General helper lemmas -/

lemma list_map_id_of {α : Type} (l : List α) (f : α → α) (h : ∀ x ∈ l, f x = x) :
    l.map f = l := by
  induction l with
  | nil => rfl
  | cons x rest ih =>
    rw [List.map_cons, h x (List.mem_cons_self x rest),
      ih fun y hy => h y (List.mem_cons_of_mem x hy)]

lemma insertByKey_fresh {α : Type} (key : α → String) (acc : List α) (x : α)
    (h : ∀ m ∈ acc, key m ≠ key x) :
    insertByKey key acc x = acc ++ [x] := by
  have hany : acc.any (fun m => key m == key x) = false := by
    cases hany : acc.any (fun m => key m == key x) with
    | false => rfl
    | true =>
      obtain ⟨m, hm, he⟩ := List.any_eq_true.mp hany
      exact absurd (by simpa using he) (h m hm)
  simp [insertByKey, hany]

lemma foldl_insertByKey_append {α : Type} (key : α → String) (l : List α) :
    ∀ acc : List α, (∀ x ∈ l, ∀ m ∈ acc, key m ≠ key x) → (l.map key).Nodup →
      l.foldl (insertByKey key) acc = acc ++ l := by
  induction l with
  | nil => intro acc _ _; simp
  | cons x rest ih =>
    intro acc hdisj hnodup
    have hx : key x ∉ rest.map key :=
      (List.nodup_cons.mp (by simpa using hnodup)).1
    have hrest : (rest.map key).Nodup :=
      (List.nodup_cons.mp (by simpa using hnodup)).2
    rw [List.foldl_cons,
      insertByKey_fresh key acc x (fun m hm => hdisj x (List.mem_cons_self x rest) m hm)]
    have hdisj2 : ∀ y ∈ rest, ∀ m ∈ acc ++ [x], key m ≠ key y := by
      intro y hy m hm
      rcases List.mem_append.mp hm with hm | hm
      · exact hdisj y (List.mem_cons_of_mem x hy) m hm
      · have hmx : m = x := by simpa using hm
        subst hmx
        intro hcon
        exact hx (by rw [hcon]; exact List.mem_map_of_mem key hy)
    rw [ih (acc ++ [x]) hdisj2 hrest]
    simp

lemma dedupByKey_eq_self {α : Type} (key : α → String) (l : List α)
    (h : (l.map key).Nodup) : dedupByKey key l = l := by
  have hd : ∀ x ∈ l, ∀ m ∈ ([] : List α), key m ≠ key x := by
    intro x hx m hm
    exact absurd hm (List.not_mem_nil m)
  simpa [dedupByKey] using foldl_insertByKey_append key l [] hd h

lemma addNodes_fresh_state (incoming : List DiagramNode) (s : DiagramState)
    (hnodup : (s.nodes.map (fun n => n.id)).Nodup)
    (hfresh : ∀ x ∈ incoming, ∀ n ∈ s.nodes, n.id ≠ x.id)
    (hinc : (incoming.map (fun n => n.id)).Nodup) :
    addNodes incoming s = { s with nodes := s.nodes ++ incoming } := by
  unfold addNodes
  rw [dedupByKey_eq_self (fun n => n.id) s.nodes hnodup,
    foldl_insertByKey_append (fun n => n.id) incoming s.nodes hfresh hinc]

lemma addEdges_fresh_state (incoming : List DiagramEdge) (s : DiagramState)
    (hnodup : (s.edges.map (fun e => e.id)).Nodup)
    (hfresh : ∀ x ∈ incoming, ∀ e ∈ s.edges, e.id ≠ x.id)
    (hinc : (incoming.map (fun e => e.id)).Nodup)
    (hnormOld : ∀ e ∈ s.edges, normalizeEdge e = e)
    (hnormNew : ∀ e ∈ incoming, normalizeEdge e = e) :
    addEdges incoming s = { s with edges := s.edges ++ incoming } := by
  unfold addEdges
  rw [dedupByKey_eq_self (fun e => e.id) s.edges hnodup,
    foldl_insertByKey_append (fun e => e.id) incoming s.edges hfresh hinc,
    List.map_append, list_map_id_of s.edges normalizeEdge hnormOld,
    list_map_id_of incoming normalizeEdge hnormNew]

/-! ## Claim theorems -/

/-- C1: for every graph state and entity id `E`, `removeNode E` removes the
node with id `E` and every relationship whose source or target equals `E`, in
a single state update, and leaves every other node and relationship unchanged
(membership in the result is membership before, minus exactly the removed
elements); afterwards no relationship in the store has source or target
`E`. -/
theorem removeNode_cascade (s : DiagramState) (E : String) :
    (∀ n : DiagramNode, n ∈ (removeNode E s).nodes ↔ n ∈ s.nodes ∧ n.id ≠ E) ∧
    (∀ e : DiagramEdge,
      e ∈ (removeNode E s).edges ↔ e ∈ s.edges ∧ e.source ≠ E ∧ e.target ≠ E) ∧
    (∀ e ∈ (removeNode E s).edges, e.source ≠ E ∧ e.target ≠ E) := by
  refine ⟨?_, ?_, ?_⟩
  · intro n
    simp [removeNode, List.mem_filter]
  · intro e
    simp [removeNode, List.mem_filter]
  · intro e he
    simp [removeNode, List.mem_filter] at he
    exact ⟨he.2.1, he.2.2⟩

/-- Witness state for C1: the scenario of the spec — `Pedido` is referenced by
three relationships. -/
def c1State : DiagramState :=
  { nodes :=
      [buildNode "node-pedido" "Pedido" [] ⟨0, 0⟩,
       buildNode "node-usuario" "Usuario" [] ⟨1, 1⟩,
       buildNode "node-otro" "Otro" [] ⟨2, 2⟩]
    edges :=
      [buildEdge "r1" "node-usuario" "node-pedido" "1" "*",
       buildEdge "r2" "node-pedido" "node-otro" "1" "*",
       buildEdge "r3" "node-otro" "node-pedido" "1" "*",
       buildEdge "r4" "node-usuario" "node-otro" "1" "*"] }

/-- Witness for C1 at the spec's scenario: after removing `Pedido`, the
unrelated node survives, an edge targeting `Pedido` is gone, and the edge not
referencing `Pedido` survives. -/
theorem removeNode_cascade_witness :
    buildNode "node-usuario" "Usuario" [] ⟨1, 1⟩ ∈
        (removeNode "node-pedido" c1State).nodes ∧
    buildEdge "r1" "node-usuario" "node-pedido" "1" "*" ∉
        (removeNode "node-pedido" c1State).edges ∧
    buildEdge "r4" "node-usuario" "node-otro" "1" "*" ∈
        (removeNode "node-pedido" c1State).edges :=
  ⟨((removeNode_cascade c1State "node-pedido").1 _).mpr ⟨by decide, by decide⟩,
   fun h => (((removeNode_cascade c1State "node-pedido").2.1 _).mp h).2.2 rfl,
   ((removeNode_cascade c1State "node-pedido").2.1 _).mpr
     ⟨by decide, by decide, by decide⟩⟩

/-- C3: the normalizer fully populates any relationship: an edge with no data
bundle gets `kind="simple"`, `sourceMult="1"`, `targetMult="*"`, `label=""`
and id/source/target copied from the top level (the spec's scenario); an edge
with a partial bundle keeps every nested field that is present (nested wins
over top-level for id/source/target), replaces an absent or unrecognized kind
by `"simple"`, keeps a valid kind, and defaults the multiplicities and
label. -/
theorem normalizeEdge_defaults :
    (∀ e : DiagramEdge, e.data = none →
      normalizeEdge e =
        { e with
          data := some
            { id := some e.id, source := some e.source, target := some e.target,
              kind := some "simple", sourceMult := some "1",
              targetMult := some "*", label := some "" } }) ∧
    (∀ (e : DiagramEdge) (d : RelationshipData), e.data = some d →
      ∃ nd : RelationshipData,
        (normalizeEdge e).data = some nd ∧
        nd.id = some (d.id.getD e.id) ∧
        nd.source = some (d.source.getD e.source) ∧
        nd.target = some (d.target.getD e.target) ∧
        validKind (nd.kind.getD "") = true ∧
        (∀ k, d.kind = some k → validKind k = true → nd.kind = some k) ∧
        (∀ k, d.kind = some k → validKind k = false → nd.kind = some "simple") ∧
        (d.kind = none → nd.kind = some "simple") ∧
        nd.sourceMult = some (d.sourceMult.getD "1") ∧
        nd.targetMult = some (d.targetMult.getD "*") ∧
        nd.label = some (d.label.getD "")) := by
  constructor
  · intro e h
    simp [normalizeEdge, h, emptyRelationshipData, normKind]
  · intro e d h
    refine
      ⟨{ id := some (d.id.getD e.id), source := some (d.source.getD e.source),
         target := some (d.target.getD e.target), kind := some (normKind d.kind),
         sourceMult := some (d.sourceMult.getD "1"),
         targetMult := some (d.targetMult.getD "*"),
         label := some (d.label.getD "") },
       by simp [normalizeEdge, h], rfl, rfl, rfl, ?_, ?_, ?_, ?_, rfl, rfl, rfl⟩
    · simpa using validKind_normKind d.kind
    · intro k hk hv
      simp [normKind, hk, hv]
    · intro k hk hv
      simp [normKind, hk, hv]
    · intro hk
      simp [normKind, hk]

/-- Witness for C3 at the spec's scenario: an edge carrying only top-level
fields and no data bundle normalizes to a simple `1`/`*` relationship with an
empty label. -/
theorem normalizeEdge_defaults_witness :
    normalizeEdge { id := "e1", source := "n1", target := "n2" } =
      { id := "e1", source := "n1", target := "n2",
        data := some
          { id := some "e1", source := some "n1", target := some "n2",
            kind := some "simple", sourceMult := some "1",
            targetMult := some "*", label := some "" } } :=
  normalizeEdge_defaults.1 _ rfl

/-- C4: the normalizer is pure and idempotent — normalizing twice equals
normalizing once, and an already-normalized edge is returned unchanged. -/
theorem normalizeEdge_pure_idempotent :
    (∀ e : DiagramEdge, normalizeEdge (normalizeEdge e) = normalizeEdge e) ∧
    (∀ e : DiagramEdge, isNormalizedEdge e = true → normalizeEdge e = e) :=
  ⟨normalizeEdge_normalizeEdge, normalizeEdge_of_isNormalized⟩

/-- Witness for C4 at a concrete already-normalized edge. -/
theorem normalizeEdge_pure_idempotent_witness :
    isNormalizedEdge
        { id := "e1", source := "n1", target := "n2", label := some ""
          data := some
            { id := some "e1", source := some "n1", target := some "n2",
              kind := some "segmentada", sourceMult := some "*",
              targetMult := some "*", label := some "" } } = true ∧
    normalizeEdge
        { id := "e1", source := "n1", target := "n2", label := some ""
          data := some
            { id := some "e1", source := some "n1", target := some "n2",
              kind := some "segmentada", sourceMult := some "*",
              targetMult := some "*", label := some "" } } =
      { id := "e1", source := "n1", target := "n2", label := some ""
        data := some
          { id := some "e1", source := some "n1", target := some "n2",
            kind := some "segmentada", sourceMult := some "*",
            targetMult := some "*", label := some "" } } :=
  ⟨by decide, normalizeEdge_pure_idempotent.2 _ (by decide)⟩

/-- A join node used to exhibit C7's failure: its data carries
`isJoin = true` and `joinOf`. -/
def c7JoinNode : DiagramNode :=
  { id := "j1", type := some "databaseNode", position := ⟨0, 0⟩,
    data := { label := "A_B",
              columns := [{ id := "j1-id", name := "id", type := "INT",
                            pk := some true, nullable := some false }],
              isJoin := some true, joinOf := some ("A", "B") } }

/-- The state holding only the join node. -/
def c7State : DiagramState := { nodes := [c7JoinNode], edges := [] }

/-- The patch `handleSaveTable` builds: only `label` and `columns`, no
`isJoin`/`joinOf`. -/
def c7Patch : DatabaseNodeData :=
  { label := "A_B_renamed",
    columns := [{ id := "j1-id", name := "id", type := "INT",
                  pk := some true, nullable := some false }] }

/-- Counterexample to C7 as stated: `updateNodeData` replaces the node's whole
data object, so the fields absent from the patch — here the join node's
`isJoin` and `joinOf` — are NOT preserved. -/
theorem updateNodeData_not_partial :
    c7JoinNode.data.isJoin = some true ∧
    c7JoinNode.data.joinOf = some ("A", "B") ∧
    ((updateNodeData "j1" c7Patch c7State).nodes.map fun n => n.data.isJoin) = [none] ∧
    ((updateNodeData "j1" c7Patch c7State).nodes.map fun n => n.data.joinOf) = [none] := by
  refine ⟨rfl, rfl, ?_, ?_⟩ <;> decide

/-- C7 as amended: `updateNodeData id data` replaces the entire data object of
every node whose id matches (unsupplied fields are lost); all other nodes, the
edges and the rest of the state are unchanged; when no node has the id the
whole state is unchanged. -/
theorem updateNodeData_replaces (s : DiagramState) (nodeId : String)
    (d : DatabaseNodeData) :
    (updateNodeData nodeId d s).nodes =
        s.nodes.map (fun n => if n.id = nodeId then { n with data := d } else n) ∧
    (∀ n ∈ s.nodes, n.id ≠ nodeId → n ∈ (updateNodeData nodeId d s).nodes) ∧
    ((∀ n ∈ s.nodes, n.id ≠ nodeId) → updateNodeData nodeId d s = s) ∧
    (updateNodeData nodeId d s).edges = s.edges := by
  refine ⟨?_, ?_, ?_, rfl⟩
  · simp [updateNodeData]
  · intro n hn hne
    have hb : (n.id == nodeId) = false := by simp [hne]
    simp only [updateNodeData]
    exact List.mem_map.mpr ⟨n, hn, by simp [hb]⟩
  · intro h
    have hnodes : s.nodes.map
        (fun n => if n.id == nodeId then { n with data := d } else n) = s.nodes := by
      apply list_map_id_of
      intro n hn
      have hb : (n.id == nodeId) = false := by simp [h n hn]
      simp [hb]
    cases s
    simp_all [updateNodeData]

/-- Witness for C7's amended no-op conjunct: updating an id that is absent
leaves the state unchanged. -/
theorem updateNodeData_replaces_witness :
    updateNodeData "missing" c7Patch c7State = c7State :=
  (updateNodeData_replaces c7State "missing" c7Patch).2.2.1 (by decide)

/-- Alphanumeric character (letter or digit), as in C6's description. -/
def isAlnumChar (c : Char) : Bool :=
  ('a' ≤ c && c ≤ 'z') || ('A' ≤ c && c ≤ 'Z') || ('0' ≤ c && c ≤ '9')

/-- Replacement of every run of NON-alphanumeric characters by a single
underscore, the transformation C6 attributes to the identifier fragment. -/
def nonAlnumRunsToUnderscore : Bool → List Char → List Char
  | _, [] => []
  | prev, c :: rest =>
    if isAlnumChar c then c :: nonAlnumRunsToUnderscore false rest
    else if prev then nonAlnumRunsToUnderscore true rest
    else '_' :: nonAlnumRunsToUnderscore true rest

/-- The identifier fragment exactly as the claim describes it: the label
lower-cased with every run of non-alphanumeric characters collapsed to a
single underscore, and `"relacion"` when that result is empty.  Stated for
comparison with the code's `toIdentifier`. -/
def claimIdentFragment (value : String) : String :=
  let cs := nonAlnumRunsToUnderscore false (value.data.map asciiToLower)
  if cs.isEmpty then "relacion" else String.mk cs

/-- Counterexample to C6 as stated: on the label `"A-B"` the code deletes the
hyphen (`toIdentifier "A-B" = "ab"`) whereas the claim's collapse-to-underscore
rule yields `"a_b"`; only whitespace runs become underscores, every other
non-alphanumeric character is removed. -/
theorem toIdentifier_vs_claimIdentFragment :
    toIdentifier "A-B" = "ab" ∧ claimIdentFragment "A-B" = "a_b" ∧
    toIdentifier "A-B" ≠ claimIdentFragment "A-B" := by
  refine ⟨?_, ?_, ?_⟩ <;> decide

/-- The single-pass form of the amended C6 rule: after trimming and
lower-casing, each whitespace run becomes one underscore, characters in
`[a-z0-9_]` are kept, and every other character is dropped. -/
def amendedFragmentAux : Bool → List Char → List Char
  | _, [] => []
  | prevWs, c :: rest =>
    if isJsWs c then
      if prevWs then amendedFragmentAux true rest
      else '_' :: amendedFragmentAux true rest
    else if isIdentChar c then c :: amendedFragmentAux false rest
    else amendedFragmentAux false rest

/-- The amended identifier fragment: label trimmed, lower-cased, whitespace
runs collapsed to a single underscore, remaining characters outside
`[a-z0-9_]` removed, `"relacion"` when empty. -/
def amendedFragment (value : String) : String :=
  let cs := amendedFragmentAux false ((jsTrimList value.data).map asciiToLower)
  if cs.isEmpty then "relacion" else String.mk cs

lemma isIdentChar_underscore : isIdentChar '_' = true := by decide

lemma filter_wsRunsToUnderscore (cs : List Char) (b : Bool) :
    (wsRunsToUnderscore b cs).filter isIdentChar = amendedFragmentAux b cs := by
  induction cs generalizing b with
  | nil => rfl
  | cons c rest ih =>
    by_cases hws : isJsWs c = true
    · cases b <;>
        simp [wsRunsToUnderscore, amendedFragmentAux, hws, isIdentChar_underscore, ih]
    · by_cases hid : isIdentChar c = true <;>
        simp [wsRunsToUnderscore, amendedFragmentAux, hws, hid, ih]

/-- C6 as amended: the identifier fragment naming the join entity's
foreign-key columns is the endpoint label trimmed and lower-cased, with every
run of whitespace collapsed to a single underscore and every other character
outside `[a-z0-9_]` removed, falling back to the literal `"relacion"` when
the result is empty; in particular `"Cliente"` and `"Pedido"` yield the
foreign-key column names `cliente_id` and `pedido_id`. -/
theorem toIdentifier_amended :
    (∀ v : String, toIdentifier v = amendedFragment v) ∧
    toIdentifier "Cliente" ++ "_id" = "cliente_id" ∧
    toIdentifier "Pedido" ++ "_id" = "pedido_id" ∧
    toIdentifier "" = "relacion" ∧
    toIdentifier "   " = "relacion" := by
  refine ⟨?_, by decide, by decide, by decide, by decide⟩
  intro v
  simp [toIdentifier, amendedFragment, filter_wsRunsToUnderscore]

/-- C9: the offline fallback generator is a pure function of the lower-cased
prompt matched by substring: a supermarket keyword yields the pre-built
supermarket graph; failing that, a user/post keyword yields the fixed
Usuario/Post graph; otherwise there is no result.  The spec's scenario prompt
yields the 2-node, 1-edge Usuario/Post graph. -/
theorem buildFallbackDiagram_spec :
    (∀ p q : String, lowerStr p = lowerStr q →
      buildFallbackDiagram p = buildFallbackDiagram q) ∧
    (∀ p : String,
      strIncludes (lowerStr p) "supermercado" = true ∨
        strIncludes (lowerStr p) "supermarket" = true →
      buildFallbackDiagram p = some buildSupermarketDiagram) ∧
    (∀ p : String,
      strIncludes (lowerStr p) "supermercado" = false →
      strIncludes (lowerStr p) "supermarket" = false →
      strIncludes (lowerStr p) "usuario" = true ∨
        strIncludes (lowerStr p) "post" = true →
      buildFallbackDiagram p = some buildDefaultDiagram) ∧
    (∀ p : String,
      strIncludes (lowerStr p) "supermercado" = false →
      strIncludes (lowerStr p) "supermarket" = false →
      strIncludes (lowerStr p) "usuario" = false →
      strIncludes (lowerStr p) "post" = false →
      buildFallbackDiagram p = none) ∧
    buildFallbackDiagram "Crea tablas Usuario y Post" = some buildDefaultDiagram ∧
    buildDefaultDiagram.nodes.length = 2 ∧
    buildDefaultDiagram.edges.length = 1 ∧
    (buildDefaultDiagram.nodes.map fun n => n.data.label) = ["Usuario", "Post"] := by
  refine ⟨?_, ?_, ?_, ?_, by decide, by decide, by decide, by decide⟩
  · intro p q h
    simp only [buildFallbackDiagram, h]
  · intro p h
    rcases h with h | h <;> simp [buildFallbackDiagram, h]
  · intro p h1 h2 h3
    rcases h3 with h3 | h3 <;> simp [buildFallbackDiagram, h1, h2, h3]
  · intro p h1 h2 h3 h4
    simp [buildFallbackDiagram, h1, h2, h3, h4]

/-- Witness for C9 at the spec's scenario prompt: the user/post branch fires
(the prompt contains `"usuario"` and no supermarket keyword) and returns the
Usuario/Post fallback graph. -/
theorem buildFallbackDiagram_spec_witness :
    strIncludes (lowerStr "Crea tablas Usuario y Post") "usuario" = true ∧
    buildFallbackDiagram "Crea tablas Usuario y Post" = some buildDefaultDiagram :=
  ⟨by decide,
   buildFallbackDiagram_spec.2.2.1 "Crea tablas Usuario y Post" (by decide) (by decide)
     (Or.inl (by decide))⟩

/-- C10: on any history refetch without the preserve-null-selection option,
when the previously active id does not occur among the fetched entries, the
pointer becomes the first fetched entry's id (or null on an empty list), and
the diagram store is untouched by the refetch. -/
theorem loadHistory_pointer_adoption (s : ChatState)
    (fetched : List PromptHistoryEntry)
    (h : ∀ e ∈ fetched, some e.id ≠ s.activeHistoryId) :
    (loadHistorySuccess false fetched s).history = fetched ∧
    (loadHistorySuccess false fetched s).activeHistoryId =
      (fetched.head?).map (fun e => e.id) ∧
    (loadHistorySuccess false fetched s).diagram = s.diagram ∧
    (fetched = [] → (loadHistorySuccess false fetched s).activeHistoryId = none) ∧
    (∀ (a : PromptHistoryEntry) (rest : List PromptHistoryEntry),
      fetched = a :: rest →
      (loadHistorySuccess false fetched s).activeHistoryId = some a.id) := by
  have key : loadHistorySuccess false fetched s =
      { s with history := fetched,
               activeHistoryId := (fetched.head?).map (fun e => e.id),
               historyError := none } := by
    cases hs : s.activeHistoryId with
    | none => simp [loadHistorySuccess, hs]
    | some a =>
      have hany : fetched.any (fun e => e.id == a) = false := by
        cases hany : fetched.any (fun e => e.id == a) with
        | false => rfl
        | true =>
          obtain ⟨e, he, heq⟩ := List.any_eq_true.mp hany
          have heid : e.id = a := by simpa using heq
          exact absurd (by rw [hs, heid]) (h e he)
      simp [loadHistorySuccess, hs, hany]
  refine ⟨by rw [key], by rw [key], by rw [key], ?_, ?_⟩
  · intro hf
    rw [key, hf]
    rfl
  · intro a rest hf
    rw [key, hf]
    rfl

/-- A fetched entry for the C10 witness. -/
def c10Entry : PromptHistoryEntry :=
  { id := 7, userId := 1, prompt := "p7", graph := { nodes := [], edges := [] },
    createdAt := "t7" }

/-- A state whose active pointer (5) does not occur in the fetched list. -/
def c10State : ChatState :=
  { prompt := "x", history := [], activeHistoryId := some 5,
    diagram := { nodes := [], edges := [] } }

/-- Witness for C10: refetching `[entry 7]` while entry 5 is active moves the
pointer to 7 and leaves the canvas alone. -/
theorem loadHistory_pointer_adoption_witness :
    (loadHistorySuccess false [c10Entry] c10State).activeHistoryId = some 7 ∧
    (loadHistorySuccess false [c10Entry] c10State).diagram = c10State.diagram := by
  have h := loadHistory_pointer_adoption c10State [c10Entry] (by decide)
  exact ⟨h.2.2.2.2 c10Entry [] rfl, h.2.2.1⟩

/-- C8: a successful clear-all resets the pointer to null, the prompt buffer
to the default seed text and the cached history to empty, while the diagram
store (canvas) is untouched; and while a clear-all is in progress every
individual delete-entry request returns immediately, without a network call
(the boolean) and without any state change. -/
theorem clearHistory_resets_and_suppresses (s : ChatState) (hid : Int)
    (confirmed : Bool) (fetched : List PromptHistoryEntry) :
    (s.history ≠ [] →
      (handleClearHistorySuccess true s).prompt = DEFAULT_PROMPT ∧
      (handleClearHistorySuccess true s).activeHistoryId = none ∧
      (handleClearHistorySuccess true s).history = [] ∧
      (handleClearHistorySuccess true s).diagram = s.diagram) ∧
    (s.isClearingHistory = true →
      handleDeleteEntrySuccess hid confirmed fetched s = (s, false)) := by
  constructor
  · intro h
    have hne : s.history.isEmpty = false := by
      cases hh : s.history with
      | nil => exact absurd hh h
      | cons a l => simp
    simp [handleClearHistorySuccess, hne]
  · intro h
    simp [handleDeleteEntrySuccess, h]

/-- A state mid clear-all, with one cached entry. -/
def c8State : ChatState :=
  { prompt := "algo", isClearingHistory := true,
    history := [{ id := 3, userId := 1, prompt := "p",
                  graph := { nodes := [], edges := [] }, createdAt := "t" }],
    activeHistoryId := some 3, diagram := { nodes := [], edges := [] } }

/-- Witness for C8: concrete clear-all reset and concrete suppression of a
delete attempt while clearing. -/
theorem clearHistory_resets_and_suppresses_witness :
    (handleClearHistorySuccess true c8State).prompt = DEFAULT_PROMPT ∧
    (handleClearHistorySuccess true c8State).diagram = c8State.diagram ∧
    handleDeleteEntrySuccess 3 true [] c8State = (c8State, false) := by
  have h := clearHistory_resets_and_suppresses c8State 3 true []
  exact ⟨(h.1 (by decide)).1, (h.1 (by decide)).2.2.2, h.2 rfl⟩

/-- C2: completing a connection gesture from `S` to `T` while the selected
kind is the dashed/segmented kind and both selected multiplicities are `"*"`
appends exactly one join entity (`isJoin`, `joinOf`, label `S_T`, three
columns: INT pk `id` plus the two INT non-nullable foreign keys named from the
label fragments, positioned at the parents' x-midpoint and below the lower
parent by the fixed 200 offset) and exactly two `"simple"` relationships
`S → join` (selected source multiplicity / `"1"`) and `join → T` (`"1"` /
selected target multiplicity) with empty labels and the fresh generated ids;
no direct edge from `S` to `T` is added (the direct-edge filter is
unchanged). -/
theorem onConnect_many_to_many
    (s : DiagramState) (src tgt : String) (S T : DiagramNode) (now1 now2 : Nat)
    (hkind : s.selectedRelationshipKind = "segmentada")
    (hsm : s.selectedSourceMult = "*")
    (htm : s.selectedTargetMult = "*")
    (hsrc : src ≠ "") (htgt : tgt ≠ "")
    (hS : s.nodes.find? (fun n => n.id == src) = some S)
    (hT : s.nodes.find? (fun n => n.id == tgt) = some T)
    (hnodesN : (s.nodes.map (fun n => n.id)).Nodup)
    (hedgesN : (s.edges.map (fun e => e.id)).Nodup)
    (hnorm : ∀ e ∈ s.edges, normalizeEdge e = e)
    (hfreshJ : ∀ n ∈ s.nodes, n.id ≠ joinIdOf src tgt now1)
    (hfreshL : ∀ e ∈ s.edges, e.id ≠ edgeIdOf src (joinIdOf src tgt now1) now2)
    (hfreshR : ∀ e ∈ s.edges, e.id ≠ edgeIdOf (joinIdOf src tgt now1) tgt now2)
    (hLR : edgeIdOf src (joinIdOf src tgt now1) now2 ≠
      edgeIdOf (joinIdOf src tgt now1) tgt now2) :
    onConnect (some src) (some tgt) none none now1 now2 s =
      { s with
        nodes := s.nodes ++
          [{ id := joinIdOf src tgt now1, type := some "databaseNode",
             position := ⟨(S.position.x + T.position.x) / 2,
                          max S.position.y T.position.y + 200⟩,
             data := { label := S.data.label ++ "_" ++ T.data.label,
                       columns :=
                         [{ id := joinIdOf src tgt now1 ++ "-id", name := "id",
                            type := "INT", pk := some true, nullable := some false },
                          { id := joinIdOf src tgt now1 ++ "-" ++ src,
                            name := toIdentifier S.data.label ++ "_id",
                            type := "INT", nullable := some false },
                          { id := joinIdOf src tgt now1 ++ "-" ++ tgt,
                            name := toIdentifier T.data.label ++ "_id",
                            type := "INT", nullable := some false }],
                       isJoin := some true,
                       joinOf := some (S.data.label, T.data.label) } }]
        edges := s.edges ++
          [{ id := edgeIdOf src (joinIdOf src tgt now1) now2, source := src,
             target := joinIdOf src tgt now1, label := some ""
             data := some
               { id := some (edgeIdOf src (joinIdOf src tgt now1) now2),
                 source := some src, target := some (joinIdOf src tgt now1),
                 kind := some "simple", sourceMult := some "*",
                 targetMult := some "1", label := some "" } },
           { id := edgeIdOf (joinIdOf src tgt now1) tgt now2,
             source := joinIdOf src tgt now1, target := tgt, label := some ""
             data := some
               { id := some (edgeIdOf (joinIdOf src tgt now1) tgt now2),
                 source := some (joinIdOf src tgt now1), target := some tgt,
                 kind := some "simple", sourceMult := some "1",
                 targetMult := some "*", label := some "" } }] } ∧
    joinIdOf src tgt now1 ≠ src ∧ joinIdOf src tgt now1 ≠ tgt ∧
    (onConnect (some src) (some tgt) none none now1 now2 s).edges.filter
        (fun e => e.source == src && e.target == tgt) =
      s.edges.filter (fun e => e.source == src && e.target == tgt) := by
  have hSmem : S ∈ s.nodes := List.mem_of_find?_eq_some hS
  have hTmem : T ∈ s.nodes := List.mem_of_find?_eq_some hT
  have hSid : S.id = src := by simpa using List.find?_some hS
  have hTid : T.id = tgt := by simpa using List.find?_some hT
  have hJs : joinIdOf src tgt now1 ≠ src := fun hc =>
    hfreshJ S hSmem (hSid.trans hc.symm)
  have hJt : joinIdOf src tgt now1 ≠ tgt := fun hc =>
    hfreshJ T hTmem (hTid.trans hc.symm)
  have hb1 : (src == "") = false := by simp [hsrc]
  have hb2 : (tgt == "") = false := by simp [htgt]
  have hAddN :
      addNodes
        [{ id := joinIdOf src tgt now1, type := some "databaseNode",
           position := ⟨(S.position.x + T.position.x) / 2,
                        max S.position.y T.position.y + 200⟩,
           data := { label := S.data.label ++ "_" ++ T.data.label,
                     columns :=
                       [{ id := joinIdOf src tgt now1 ++ "-id", name := "id",
                          type := "INT", pk := some true, nullable := some false },
                        { id := joinIdOf src tgt now1 ++ "-" ++ src,
                          name := toIdentifier S.data.label ++ "_id",
                          type := "INT", nullable := some false },
                        { id := joinIdOf src tgt now1 ++ "-" ++ tgt,
                          name := toIdentifier T.data.label ++ "_id",
                          type := "INT", nullable := some false }],
                     isJoin := some true,
                     joinOf := some (S.data.label, T.data.label) } }] s =
      { s with
        nodes := s.nodes ++
          [{ id := joinIdOf src tgt now1, type := some "databaseNode",
             position := ⟨(S.position.x + T.position.x) / 2,
                          max S.position.y T.position.y + 200⟩,
             data := { label := S.data.label ++ "_" ++ T.data.label,
                       columns :=
                         [{ id := joinIdOf src tgt now1 ++ "-id", name := "id",
                            type := "INT", pk := some true, nullable := some false },
                          { id := joinIdOf src tgt now1 ++ "-" ++ src,
                            name := toIdentifier S.data.label ++ "_id",
                            type := "INT", nullable := some false },
                          { id := joinIdOf src tgt now1 ++ "-" ++ tgt,
                            name := toIdentifier T.data.label ++ "_id",
                            type := "INT", nullable := some false }],
                       isJoin := some true,
                       joinOf := some (S.data.label, T.data.label) } }] } := by
    refine addNodes_fresh_state _ s hnodesN ?_ (by simp)
    intro x hx n hn
    have hx' := List.mem_singleton.mp hx
    subst hx'
    exact hfreshJ n hn
  have hAddE :
      addEdges
        [{ id := edgeIdOf src (joinIdOf src tgt now1) now2, source := src,
           target := joinIdOf src tgt now1, label := some ""
           data := some
             { id := some (edgeIdOf src (joinIdOf src tgt now1) now2),
               source := some src, target := some (joinIdOf src tgt now1),
               kind := some "simple", sourceMult := some "*",
               targetMult := some "1", label := some "" } },
         { id := edgeIdOf (joinIdOf src tgt now1) tgt now2,
           source := joinIdOf src tgt now1, target := tgt, label := some ""
           data := some
             { id := some (edgeIdOf (joinIdOf src tgt now1) tgt now2),
               source := some (joinIdOf src tgt now1), target := some tgt,
               kind := some "simple", sourceMult := some "1",
               targetMult := some "*", label := some "" } }]
        { s with
          nodes := s.nodes ++
            [{ id := joinIdOf src tgt now1, type := some "databaseNode",
               position := ⟨(S.position.x + T.position.x) / 2,
                            max S.position.y T.position.y + 200⟩,
               data := { label := S.data.label ++ "_" ++ T.data.label,
                         columns :=
                           [{ id := joinIdOf src tgt now1 ++ "-id", name := "id",
                              type := "INT", pk := some true, nullable := some false },
                            { id := joinIdOf src tgt now1 ++ "-" ++ src,
                              name := toIdentifier S.data.label ++ "_id",
                              type := "INT", nullable := some false },
                            { id := joinIdOf src tgt now1 ++ "-" ++ tgt,
                              name := toIdentifier T.data.label ++ "_id",
                              type := "INT", nullable := some false }],
                         isJoin := some true,
                         joinOf := some (S.data.label, T.data.label) } }] } =
      { s with
        nodes := s.nodes ++
          [{ id := joinIdOf src tgt now1, type := some "databaseNode",
             position := ⟨(S.position.x + T.position.x) / 2,
                          max S.position.y T.position.y + 200⟩,
             data := { label := S.data.label ++ "_" ++ T.data.label,
                       columns :=
                         [{ id := joinIdOf src tgt now1 ++ "-id", name := "id",
                            type := "INT", pk := some true, nullable := some false },
                          { id := joinIdOf src tgt now1 ++ "-" ++ src,
                            name := toIdentifier S.data.label ++ "_id",
                            type := "INT", nullable := some false },
                          { id := joinIdOf src tgt now1 ++ "-" ++ tgt,
                            name := toIdentifier T.data.label ++ "_id",
                            type := "INT", nullable := some false }],
                       isJoin := some true,
                       joinOf := some (S.data.label, T.data.label) } }]
        edges := s.edges ++
          [{ id := edgeIdOf src (joinIdOf src tgt now1) now2, source := src,
             target := joinIdOf src tgt now1, label := some ""
             data := some
               { id := some (edgeIdOf src (joinIdOf src tgt now1) now2),
                 source := some src, target := some (joinIdOf src tgt now1),
                 kind := some "simple", sourceMult := some "*",
                 targetMult := some "1", label := some "" } },
           { id := edgeIdOf (joinIdOf src tgt now1) tgt now2,
             source := joinIdOf src tgt now1, target := tgt, label := some ""
             data := some
               { id := some (edgeIdOf (joinIdOf src tgt now1) tgt now2),
                 source := some (joinIdOf src tgt now1), target := some tgt,
                 kind := some "simple", sourceMult := some "1",
                 targetMult := some "*", label := some "" } }] } := by
    refine addEdges_fresh_state _ _ (by simpa using hedgesN) ?_ (by simp [hLR]) ?_ ?_
    · intro x hx e he
      have he' : e ∈ s.edges := by simpa using he
      rcases List.mem_cons.mp hx with hx1 | hx2
      · subst hx1
        exact hfreshL e he'
      · have hx2' := List.mem_singleton.mp hx2
        subst hx2'
        exact hfreshR e he'
    · intro e he
      exact hnorm e (by simpa using he)
    · intro e he
      rcases List.mem_cons.mp he with h1 | h2
      · subst h1
        exact normalizeEdge_of_isNormalized _ (by simp [isNormalizedEdge, validKind])
      · have h2' := List.mem_singleton.mp h2
        subst h2'
        exact normalizeEdge_of_isNormalized _ (by simp [isNormalizedEdge, validKind])
  have hmain : onConnect (some src) (some tgt) none none now1 now2 s =
      { s with
        nodes := s.nodes ++
          [{ id := joinIdOf src tgt now1, type := some "databaseNode",
             position := ⟨(S.position.x + T.position.x) / 2,
                          max S.position.y T.position.y + 200⟩,
             data := { label := S.data.label ++ "_" ++ T.data.label,
                       columns :=
                         [{ id := joinIdOf src tgt now1 ++ "-id", name := "id",
                            type := "INT", pk := some true, nullable := some false },
                          { id := joinIdOf src tgt now1 ++ "-" ++ src,
                            name := toIdentifier S.data.label ++ "_id",
                            type := "INT", nullable := some false },
                          { id := joinIdOf src tgt now1 ++ "-" ++ tgt,
                            name := toIdentifier T.data.label ++ "_id",
                            type := "INT", nullable := some false }],
                       isJoin := some true,
                       joinOf := some (S.data.label, T.data.label) } }]
        edges := s.edges ++
          [{ id := edgeIdOf src (joinIdOf src tgt now1) now2, source := src,
             target := joinIdOf src tgt now1, label := some ""
             data := some
               { id := some (edgeIdOf src (joinIdOf src tgt now1) now2),
                 source := some src, target := some (joinIdOf src tgt now1),
                 kind := some "simple", sourceMult := some "*",
                 targetMult := some "1", label := some "" } },
           { id := edgeIdOf (joinIdOf src tgt now1) tgt now2,
             source := joinIdOf src tgt now1, target := tgt, label := some ""
             data := some
               { id := some (edgeIdOf (joinIdOf src tgt now1) tgt now2),
                 source := some (joinIdOf src tgt now1), target := some tgt,
                 kind := some "simple", sourceMult := some "1",
                 targetMult := some "*", label := some "" } }] } := by
    simp only [onConnect, hb1, hb2, hkind, hsm, htm, hS, hT, Bool.or_self,
      Bool.false_or, Bool.or_false, if_false, Option.map_some', Option.getD_some,
      beq_self_eq_true, Bool.and_self, if_true]
    rw [hAddN, hAddE]
    simp [hkind, hsm, htm]
  refine ⟨hmain, hJs, hJt, ?_⟩
  have hbt : (joinIdOf src tgt now1 == tgt) = false := by simp [hJt]
  have hbs : (joinIdOf src tgt now1 == src) = false := by simp [hJs]
  rw [hmain]
  simp [List.filter_append, hbt, hbs]

/-- The `Cliente` endpoint of the C2 witness scenario. -/
def c2Cliente : DiagramNode :=
  buildNode "n-cliente" "Cliente"
    [{ id := "c-id", name := "id", type := "INT", pk := some true,
       nullable := some false }] ⟨80, 100⟩

/-- The `Pedido` endpoint of the C2 witness scenario. -/
def c2Pedido : DiagramNode :=
  buildNode "n-pedido" "Pedido"
    [{ id := "p-id", name := "id", type := "INT", pk := some true,
       nullable := some false }] ⟨460, 180⟩

/-- The canvas holding `Cliente` and `Pedido` with the many-to-many tool
selected. -/
def c2State : DiagramState :=
  { nodes := [c2Cliente, c2Pedido], edges := [],
    selectedRelationshipKind := "segmentada", selectedSourceMult := "*",
    selectedTargetMult := "*" }

/-- Witness for C2 at the spec's scenario: connecting `Cliente` to `Pedido`
yields the join entity `Cliente_Pedido` with columns `id`, `cliente_id`,
`pedido_id` and exactly the two edges `Cliente → join` and `join → Pedido`. -/
theorem onConnect_many_to_many_witness :
    ((onConnect (some "n-cliente") (some "n-pedido") none none 5 6 c2State).nodes.map
      fun n => n.data.label) = ["Cliente", "Pedido", "Cliente_Pedido"] ∧
    ((onConnect (some "n-cliente") (some "n-pedido") none none 5 6 c2State).nodes.map
      fun n => n.data.columns.map fun c => c.name).getLast? =
      some ["id", "cliente_id", "pedido_id"] ∧
    ((onConnect (some "n-cliente") (some "n-pedido") none none 5 6 c2State).edges.map
      fun e => (e.source, e.target)) =
      [("n-cliente", joinIdOf "n-cliente" "n-pedido" 5),
       (joinIdOf "n-cliente" "n-pedido" 5, "n-pedido")] := by
  have h := (onConnect_many_to_many c2State "n-cliente" "n-pedido" c2Cliente c2Pedido 5 6
    rfl rfl rfl (by decide) (by decide) (by decide) (by decide) (by decide) (by decide)
    (by decide) (by decide) (by decide) (by decide) (by decide)).1
  rw [h]
  refine ⟨?_, ?_, ?_⟩ <;> decide

/-- The cached entry that is active in the C5 scenario. -/
def c5Entry : PromptHistoryEntry :=
  { id := 7, userId := 1, prompt := "p7", graph := { nodes := [], edges := [] },
    createdAt := "t7" }

/-- A non-empty response graph for the generation call. -/
def c5Graph : DiagramGraph :=
  { nodes := [buildNode "n1" "Tabla1" [] ⟨0, 0⟩], edges := [] }

/-- State with entry 7 selected as the active conversation. -/
def c5State : ChatState :=
  { prompt := "hola", history := [c5Entry], activeHistoryId := some 7,
    diagram := { nodes := [], edges := [] } }

/-- Counterexample to C5 as stated: the generation response carries no history
id at all, so the claim's condition "the response explicitly reports that it
updated that same history id" is false and the claim prescribes a full
refetch (here the refetched list is empty); the code instead patches entry 7
in place whenever the pointer is non-null, keeping the one-element list and
the pointer. -/
theorem handleGenerate_patches_without_reported_id :
    (handleGenerateSuccess c5Graph [] c5State).history =
      [{ c5Entry with prompt := "hola", graph := c5Graph }] ∧
    (handleGenerateSuccess c5Graph [] c5State).history ≠ [] ∧
    (handleGenerateSuccess c5Graph [] c5State).activeHistoryId = some 7 := by
  refine ⟨?_, ?_, ?_⟩ <;> decide

/-- C5 as amended.  Generation (whose response carries no history id): when
the pointer is non-null the cached entry with that id is patched in place
(prompt and graph replaced, length and other entries unchanged, pointer
unchanged); when it is null the list is refetched and the pointer follows the
refetch rule (first entry or null).  Vision: the in-place patch happens
exactly when the pointer is non-null and the response's id equals it (the
pointer is unchanged and the patched prompt falls back to the entry's own
prompt when the response's is empty); otherwise the list is refetched and a
non-zero response id is adopted as the pointer. -/
theorem reconciler_update_policy (s : ChatState) (fetched : List PromptHistoryEntry)
    (resp : DiagramGraph) (respId : Int) (respPrompt : Option String) :
    (∀ hid : Int, s.activeHistoryId = some hid → jsTrimString s.prompt ≠ "" →
      ¬(resp.nodes = [] ∧ resp.edges = []) →
      (handleGenerateSuccess resp fetched s).history =
        s.history.map (fun e =>
          if e.id = hid then { e with prompt := jsTrimString s.prompt, graph := resp }
          else e) ∧
      (handleGenerateSuccess resp fetched s).activeHistoryId = some hid ∧
      (handleGenerateSuccess resp fetched s).history.length = s.history.length) ∧
    (s.activeHistoryId = none → jsTrimString s.prompt ≠ "" →
      ¬(resp.nodes = [] ∧ resp.edges = []) →
      (handleGenerateSuccess resp fetched s).history = fetched ∧
      (handleGenerateSuccess resp fetched s).activeHistoryId =
        (fetched.head?).map (fun e => e.id)) ∧
    (∀ hid : Int, s.activeHistoryId = some hid → respId = hid →
      (handleProcessImageSuccess resp respId respPrompt fetched s).history =
        s.history.map (fun e =>
          if e.id = hid then
            { e with
              prompt :=
                if respPrompt.getD (jsTrimString s.prompt) = "" then e.prompt
                else respPrompt.getD (jsTrimString s.prompt),
              graph := resp }
          else e) ∧
      (handleProcessImageSuccess resp respId respPrompt fetched s).activeHistoryId =
        s.activeHistoryId ∧
      (handleProcessImageSuccess resp respId respPrompt fetched s).history.length =
        s.history.length) ∧
    (∀ hid : Int, s.activeHistoryId = some hid → respId ≠ hid → respId ≠ 0 →
      (handleProcessImageSuccess resp respId respPrompt fetched s).history = fetched ∧
      (handleProcessImageSuccess resp respId respPrompt fetched s).activeHistoryId =
        some respId) ∧
    (s.activeHistoryId = none → respId ≠ 0 →
      (handleProcessImageSuccess resp respId respPrompt fetched s).history = fetched ∧
      (handleProcessImageSuccess resp respId respPrompt fetched s).activeHistoryId =
        some respId) := by
  refine ⟨?_, ?_, ?_, ?_, ?_⟩
  · intro hid hs hp hr
    have h1 : (jsTrimString s.prompt == "") = false := by simp [hp]
    have h2 : (resp.nodes.isEmpty && resp.edges.isEmpty) = false := by
      cases hn : resp.nodes with
      | nil =>
        cases he : resp.edges with
        | nil => exact absurd ⟨hn, he⟩ hr
        | cons b l => simp
      | cons a l => simp
    simp [handleGenerateSuccess, h1, h2, hs]
  · intro hs hp hr
    have h1 : (jsTrimString s.prompt == "") = false := by simp [hp]
    have h2 : (resp.nodes.isEmpty && resp.edges.isEmpty) = false := by
      cases hn : resp.nodes with
      | nil =>
        cases he : resp.edges with
        | nil => exact absurd ⟨hn, he⟩ hr
        | cons b l => simp
      | cons a l => simp
    simp [handleGenerateSuccess, h1, h2, hs, loadHistorySuccess]
  · intro hid hs heq
    subst heq
    by_cases h0 : respId = 0
    · subst h0
      simp [handleProcessImageSuccess, hs]
    · have hb : (respId != 0) = true := by simp [h0]
      simp [handleProcessImageSuccess, hs, hb]
  · intro hid hs hne h0
    have hb : (respId == hid) = false := by simp [hne]
    have hb0 : (respId != 0) = true := by simp [h0]
    simp [handleProcessImageSuccess, hs, hb, hb0, loadHistorySuccess]
  · intro hs h0
    have hb0 : (respId != 0) = true := by simp [h0]
    simp [handleProcessImageSuccess, hs, hb0, loadHistorySuccess]

/-- Witness for C5's amended generate branch: generating with entry 7 active
keeps the pointer at 7 and the history length at 1 (entry updated in place,
no new entry). -/
theorem reconciler_update_policy_witness :
    jsTrimString c5State.prompt ≠ "" ∧
    (handleGenerateSuccess c5Graph [] c5State).activeHistoryId = some 7 ∧
    (handleGenerateSuccess c5Graph [] c5State).history.length =
      c5State.history.length := by
  have h := (reconciler_update_policy c5State [] c5Graph 0 none).1 7 rfl
    (by decide) (by decide)
  exact ⟨by decide, h.2.1, h.2.2⟩

end UmlEditor
